import Mathlib

/-!
Shallow embedding of the CineScope_CS661 data-transformation pipeline
(src/tabs/country.py, src/tabs/company.py, src/tabs/genre.py,
src/tabs/overview.py, src/dash_dashboard.py).

Pandas cells are modelled explicitly: a float cell is a `PVal`
(finite rational, NaN, or ±infinity); an object-dtype cell holding a
string, a missing value, or a python list of strings is a `Cell`.
A dataframe row is a `Row` holding the columns the dashboard uses;
a dataframe is a `List Row`.  The plotly figure-construction layer is
abstracted into the `Chart` type carrying the data series handed to the
charting library; figure styling is out of scope of every claim.
-/

namespace CineScope

/-- A pandas/numpy float cell: a finite rational, NaN, or ±∞.
Models the values that `revenue / budget` etc. can take. -/
inductive PVal where
  | nan
  | inf
  | ninf
  | num (q : ℚ)
deriving DecidableEq, Repr

/-- IEEE-style division as numpy performs it on float cells:
`0/0 = NaN`, `x/0 = ±∞` for `x ≠ 0`, NaN propagates, `±∞/±∞ = NaN`,
finite `/ ±∞ = 0`. Models `df['revenue'] / df['budget']`. -/
def PVal.div : PVal → PVal → PVal
  | .nan, _ => .nan
  | _, .nan => .nan
  | .inf, .inf => .nan
  | .inf, .ninf => .nan
  | .ninf, .inf => .nan
  | .ninf, .ninf => .nan
  | .inf, .num b => if b < 0 then .ninf else .inf
  | .ninf, .num b => if b < 0 then .inf else .ninf
  | .num _, .inf => .num 0
  | .num _, .ninf => .num 0
  | .num a, .num b =>
      if b = 0 then (if a = 0 then .nan else if 0 < a then .inf else .ninf)
      else .num (a / b)

/-- Models `df.replace([np.inf, -np.inf], np.nan)` on one float cell. -/
def PVal.replaceInfNan : PVal → PVal
  | .inf => .nan
  | .ninf => .nan
  | v => v

/-- The derived-field ROI computation as the country/company tabs perform it:
`df['roi'] = df['revenue'] / df['budget']` followed by
`df.replace([np.inf, -np.inf], np.nan)` (country.py lines 19-20,
company.py lines 21-22). -/
def roiCalc (revenue budget : PVal) : PVal :=
  (PVal.div revenue budget).replaceInfNan

/- ### Character-level string utilities

Python string methods are modelled on `List Char` (all data in the
pipeline is ASCII).  Lean core's `String` loops do not reduce in the
kernel, so the embedding carries its own structural definitions and
moves between `String` and `List Char` via `String.data` / `String.mk`. -/

/-- Python `\s` for the whitespace the dataset can contain. -/
def isWs (c : Char) : Bool :=
  c = ' ' || c = Char.ofNat 9 || c = Char.ofNat 10 || c = Char.ofNat 13

/-- `str.strip()` on a char list: drop whitespace at both ends. -/
def trimChars (l : List Char) : List Char :=
  ((l.dropWhile isWs).reverse.dropWhile isWs).reverse

/-- `str.strip()` on a string. -/
def pyStrip (s : String) : String := String.mk (trimChars s.data)

/-- ASCII lower-casing of one character, as `str.lower()` does. -/
def lowerChar (c : Char) : Char :=
  if 'A' ≤ c && c ≤ 'Z' then Char.ofNat (c.toNat + 32) else c

/-- `str.lower()` on a string (ASCII). -/
def pyLower (s : String) : String := String.mk (s.data.map lowerChar)

/-- The single-quote character, `'`. -/
def sq : Char := Char.ofNat 39

/-- `str.replace("'", "")`: delete every single quote. -/
def removeQuotes (s : String) : String :=
  String.mk (s.data.filter (fun c => c ≠ sq))

/-- `str.strip("[]")`: drop the characters `[` and `]` from both ends. -/
def stripBrackets (s : String) : String :=
  let isBr : Char → Bool := fun c => c = '[' || c = ']'
  String.mk (((s.data.dropWhile isBr).reverse.dropWhile isBr).reverse)

/-- Fuelled splitter: splits a char list at every occurrence of the
(nonempty) separator `sep`, like python `str.split(sep)`. The fuel is
the length of the list, which bounds the recursion. -/
def splitFuel (sep : List Char) : Nat → List Char → List Char → List (List Char)
  | 0, l, acc => [acc.reverse ++ l]
  | _ + 1, [], acc => [acc.reverse]
  | fuel + 1, c :: rest, acc =>
      if sep.isPrefixOf (c :: rest) then
        acc.reverse :: splitFuel sep fuel (List.drop (sep.length - 1) rest) []
      else
        splitFuel sep fuel rest (c :: acc)

/-- `s.split(sep)` for a literal (nonempty) separator. -/
def pySplit (s : String) (sep : String) : List String :=
  (splitFuel sep.data s.data.length s.data []).map String.mk

/-- `re.split(r',\s*', s)`: split at each comma, then drop the
whitespace that followed the comma (whitespace before a comma stays
attached to the preceding token, exactly as the regex behaves). -/
def splitCommaWs (s : String) : List String :=
  match pySplit s "," with
  | [] => []
  | t :: ts => t :: ts.map (fun u => String.mk (u.data.dropWhile isWs))

/-- Leading run of decimal digits of a char list, as a number,
requiring at least `k` digits; helper for year parsing. -/
def digitsToNat : List Char → Nat
  | [] => 0
  | c :: rest => (c.toNat - 48) * 10 ^ rest.length + digitsToNat rest

/-- `pd.to_datetime(s, errors='coerce').dt.year`, abstracted: the
dataset's dates are `YYYY-MM-DD` strings, so the year is the leading
4-digit prefix; anything else fails to parse and yields null (NaT). -/
def parseYear (s : String) : Option Int :=
  match s.data with
  | a :: b :: c :: d :: rest =>
      if a.isDigit && b.isDigit && c.isDigit && d.isDigit
         && (rest = [] || rest.headD ' ' = '-') then
        some (Int.ofNat (digitsToNat [a, b, c, d]))
      else none
  | _ => none

/- ### Object-dtype cells and rows -/

/-- An object-dtype pandas cell: missing (NaN), a string, or a python
list of strings (the result of `str.split`). -/
inductive Cell where
  | na
  | str (s : String)
  | strs (l : List String)
deriving DecidableEq, Repr

/-- `astype(str)` on one cell: `str(np.nan) = "nan"`, a string stays
itself, and a python list prints as `['A', 'B']`. -/
def Cell.toPyStr : Cell → String
  | .na => "nan"
  | .str s => s
  | .strs l =>
      "[" ++ String.intercalate ", " (l.map (fun x => sq.toString ++ x ++ sq.toString)) ++ "]"

/-- The `.str` accessor on a cell: string methods apply to string
cells and give NaN on missing values and non-string (list) values. -/
def Cell.strMap (f : String → String) : Cell → Cell
  | .str s => .str (f s)
  | _ => .na

/-- `df['col'].str.strip()` on one cell. -/
def Cell.strip (c : Cell) : Cell := c.strMap pyStrip

/-- `df['col'] == v` on one cell: NaN and list cells compare unequal. -/
def Cell.eqStr (c : Cell) (v : String) : Bool :=
  match c with
  | .str s => s = v
  | _ => false

/-- `df['col'].str.lower() == v` on one cell. -/
def Cell.lowerEq (c : Cell) (v : String) : Bool :=
  match c with
  | .str s => pyLower s = v
  | _ => false

/-- `df['col'].str.lower().isin(vs)` on one cell (NaN is not in). -/
def Cell.lowerIsin (c : Cell) (vs : List String) : Bool :=
  match c with
  | .str s => vs.contains (pyLower s)
  | _ => false

/-- `df['col'].notna()` on one cell. -/
def Cell.notna (c : Cell) : Bool :=
  match c with
  | .na => false
  | _ => true

/-- One dataset row with the columns the dashboard touches.  `year` and
`roi` are the derived columns; before a tab derives them they hold
`none` / `PVal.nan`. -/
structure Row where
  title : Option String
  releaseDate : Option String
  genres : Cell
  countries : Cell
  companies : Cell
  revenue : PVal
  budget : PVal
  popularity : PVal
  roi : PVal
  year : Option Int
deriving DecidableEq, Repr

/- ### Row expansion (`DataFrame.explode`) -/

/-- `df.explode(col)` semantics for one cell, returning the list of
scalar cells the row is replicated with: a list cell with elements
yields one scalar per element, an EMPTY list cell yields a single NaN
cell (pandas keeps the row with NaN — it does not drop it), and a
scalar/missing cell is returned unchanged. -/
def explodeCell : Cell → List Cell
  | .strs [] => [.na]
  | .strs l => l.map Cell.str
  | c => [c]

/-- `df.explode('genres')`. -/
def explodeGenres (t : List Row) : List Row :=
  t.flatMap (fun r => (explodeCell r.genres).map (fun c => { r with genres := c }))

/-- `df.explode('production_countries')`. -/
def explodeCountries (t : List Row) : List Row :=
  t.flatMap (fun r => (explodeCell r.countries).map (fun c => { r with countries := c }))

/-- `df.explode('production_companies')`. -/
def explodeCompanies (t : List Row) : List Row :=
  t.flatMap (fun r => (explodeCell r.companies).map (fun c => { r with companies := c }))

/- ### Grouped counting, `value_counts` and `nlargest` -/

/-- Distinct values of a list in order of first appearance — the key
order pandas produces for grouped results before any sort. -/
def uniqueInOrder {α : Type} [DecidableEq α] (l : List α) : List α :=
  l.foldl (fun acc x => if x ∈ acc then acc else acc ++ [x]) []

/-- Counting of already-extracted keys: one `(key, count)` pair per
distinct key, in first-appearance order — the order pandas' value
counting produces.  (`groupby(...).size()/agg` callers present groups
key-sorted instead; no property about those depends on row order,
only on which pairs exist.) -/
def groupKeyCounts {α : Type} [DecidableEq α] (keys : List α) : List (α × Nat) :=
  (uniqueInOrder keys).map (fun x => (x, keys.count x))

/-- `groupby(key).size()` for string keys. -/
def groupCounts (keys : List String) : List (String × Nat) :=
  groupKeyCounts keys

/-- Insert a `(key, count)` pair into a list sorted by count
descending, placing it AFTER existing pairs of equal count. -/
def insertDesc (x : String × Nat) : List (String × Nat) → List (String × Nat)
  | [] => [x]
  | y :: ys => if y.2 < x.2 then x :: y :: ys else y :: insertDesc x ys

/-- Sort by count descending (stable insertion sort: equal counts keep
their existing relative order). -/
def sortCountDesc (l : List (String × Nat)) : List (String × Nat) :=
  l.foldl (fun acc x => insertDesc x acc) []

/-- `Series.value_counts()` over the values of a column: counts of the
distinct values sorted by count descending.  pandas applies NO
value-based tie-break — equal counts keep the positional order coming
out of the counting step (first appearance), which the stable sort
here reproduces. -/
def valueCounts (keys : List String) : List (String × Nat) :=
  sortCountDesc (groupCounts keys)

/-- `value_counts().nlargest(n)` (default `keep='first'`): on the
already-descending counts this takes the first `n` entries. -/
def nlargestCounts (n : Nat) (keys : List String) : List (String × Nat) :=
  (valueCounts keys).take n

/-- Lexicographic strict order on char lists (by code point). -/
def lexLt : List Char → List Char → Bool
  | [], [] => false
  | [], _ :: _ => true
  | _ :: _, [] => false
  | a :: as, b :: bs =>
      if a.toNat < b.toNat then true
      else if b.toNat < a.toNat then false
      else lexLt as bs

/-- Lexicographic strict order on strings. -/
def strLt (a b : String) : Bool := lexLt a.data b.data

/-- Insertion step for the spec's ordering: metric descending, ties by
ascending lexical order of the key. -/
def insertSpec (x : String × Nat) : List (String × Nat) → List (String × Nat)
  | [] => [x]
  | y :: ys =>
      if decide (y.2 < x.2) || (decide (y.2 = x.2) && strLt x.1 y.1) then x :: y :: ys
      else y :: insertSpec x ys

/-- Modelled from the spec: the Aggregator top-N restriction as the
spec words it — sorted by metric descending with ties broken by
ascending lexical order of the group-key string, then take `n`.
(Defined only to compare against `nlargestCounts`, which is what the
code computes.) -/
def specTopN (n : Nat) (keys : List String) : List (String × Nat) :=
  ((groupCounts keys).foldl (fun acc x => insertSpec x acc) []).take n

/- ### Grouped counting over pairs of keys -/

/-- `groupby([k1, k2]).size()` over extracted key pairs, in
first-appearance order (pandas drops rows whose key is NaN before
grouping; callers extract only non-NaN keys). -/
def groupPairCounts (keys : List (String × String)) : List ((String × String) × Nat) :=
  groupKeyCounts keys

/- ### Company alias tables (genre.py company_heatmap, dash_dashboard
create_company_sankey_chart) -/

/-- `target_studios` of genre.py `company_heatmap`, verbatim:
canonical studio name → known variant spellings. -/
def target_studios : List (String × List String) :=
  [("Universal Pictures", ["Universal Pictures", "Universal Studios", "Universal Entertainment"]),
   ("Paramount Pictures", ["Paramount Pictures", "Paramount", "Paramount Studios"]),
   ("Warner Bros. Pictures",
     ["Warner Bros.", "Warner Brothers", "Warner Bros. Pictures", "Warner Bros. Entertainment"]),
   ("Walt Disney Studios",
     ["Walt Disney Pictures", "Disney", "Walt Disney Studios", "Walt Disney Productions"]),
   ("Sony Pictures",
     ["Sony Pictures", "Columbia Pictures", "Sony Pictures Entertainment", "TriStar Pictures"]),
   ("Lionsgate", ["Lionsgate", "Lions Gate Entertainment", "Lionsgate Films"]),
   ("20th Century Studios", ["20th Century Fox", "20th Century Studios", "Twentieth Century Fox"]),
   ("DreamWorks Studios", ["DreamWorks", "DreamWorks Pictures", "DreamWorks Studios"]),
   ("Marvel Studios", ["Marvel Studios", "Marvel Entertainment", "Marvel"]),
   ("Pixar Animation", ["Pixar", "Pixar Animation Studios"])]

/-- The inverted alias map `{alias: studio for studio, variants in
target_studios.items() for alias in variants}`: looks a variant up to
its canonical studio; a later duplicate key would overwrite an earlier
one, so the LAST matching pair wins, as in a python dict
comprehension. Returns `none` for an unlisted name (`.map` then gives
NaN in `df['studio_mapped']`). -/
def studio_map (name : String) : Option String :=
  ((target_studios.flatMap (fun p => p.2.map (fun a => (a, p.1)))).reverse.find?
    (fun p => p.1 = name)).map (fun p => p.2)

/-- The alias-resolution step of genre.py `company_heatmap` lines
184-185: `df['studio_mapped'] = df['production_companies'].map(studio_map)`
followed by `df = df[df['studio_mapped'].notna()]` — each company name
is replaced by its canonical studio and rows whose name has no alias
entry are DROPPED. -/
def heatmapAliasStep (companies : List String) : List String :=
  companies.filterMap studio_map

/-- `company_aliases` of dash_dashboard.py `create_company_sankey_chart`,
verbatim (it additionally lists Amazon MGM Studios). -/
def company_aliases : List (String × List String) :=
  [("Universal Pictures", ["Universal Pictures", "Universal Studios", "Universal Entertainment"]),
   ("Paramount Pictures", ["Paramount Pictures", "Paramount", "Paramount Studios"]),
   ("Warner Bros. Pictures",
     ["Warner Bros.", "Warner Brothers", "Warner Bros. Pictures", "Warner Bros. Entertainment"]),
   ("Walt Disney Studios",
     ["Walt Disney Pictures", "Disney", "Walt Disney Studios", "Walt Disney Productions"]),
   ("Sony Pictures",
     ["Sony Pictures", "Columbia Pictures", "Sony Pictures Entertainment", "TriStar Pictures"]),
   ("Lionsgate", ["Lionsgate", "Lions Gate Entertainment", "Lionsgate Films"]),
   ("20th Century Studios", ["20th Century Fox", "20th Century Studios", "Twentieth Century Fox"]),
   ("DreamWorks Studios", ["DreamWorks", "DreamWorks Pictures", "DreamWorks Studios"]),
   ("Amazon MGM Studios", ["MGM", "Metro-Goldwyn-Mayer", "Amazon Studios", "Amazon MGM Studios"]),
   ("Marvel Studios", ["Marvel Studios", "Marvel Entertainment", "Marvel"]),
   ("Pixar Animation", ["Pixar", "Pixar Animation Studios"])]

/-- `company_aliases.get(selected_company, [selected_company])` in
`create_company_sankey_chart`: the variant list of a canonical name,
falling back to the singleton of the raw selection. -/
def sankeyAliases (selected : String) : List String :=
  match company_aliases.find? (fun p => p.1 = selected) with
  | some p => p.2
  | none => [selected]

/- ### Country-code mapping (Code Mapper) -/

/-- `manual_mapping` of `get_iso_alpha3_enhanced` in
src/tabs/country.py lines 261-269, verbatim and in source order. -/
def countryTabManual : List (String × String) :=
  [("United States of America", "USA"), ("UK", "GBR"),
   ("United Kingdom", "GBR"), ("Russia", "RUS"),
   ("South Korea", "KOR"), ("North Korea", "PRK"),
   ("Czech Republic", "CZE"), ("Iran", "IRN"),
   ("Venezuela", "VEN"), ("Bolivia", "BOL"),
   ("Taiwan", "TWN"), ("Moldova", "MDA"),
   ("Vietnam", "VNM"), ("Macedonia", "MKD")]

/-- `manual_mapping` of the `get_iso_alpha3_enhanced` nested in
dash_dashboard.py `create_choropleth_map` (lines 328-350), verbatim. -/
def dashManual : List (String × String) :=
  [("United States", "USA"), ("United States of America", "USA"),
   ("United Kingdom", "GBR"), ("UK", "GBR"),
   ("Russia", "RUS"), ("Russian Federation", "RUS"),
   ("South Korea", "KOR"), ("Korea, Republic of", "KOR"),
   ("North Korea", "PRK"),
   ("Korea, Democratic People" ++ sq.toString ++ "s Republic of", "PRK"),
   ("Czech Republic", "CZE"), ("Czechia", "CZE"),
   ("Iran", "IRN"), ("Iran, Islamic Republic of", "IRN"),
   ("Venezuela", "VEN"), ("Venezuela, Bolivarian Republic of", "VEN"),
   ("Bolivia", "BOL"), ("Bolivia, Plurinational State of", "BOL"),
   ("Taiwan", "TWN"), ("Taiwan, Province of China", "TWN"),
   ("Moldova", "MDA"), ("Moldova, Republic of", "MDA"),
   ("Vietnam", "VNM"), ("Viet Nam", "VNM"),
   ("Macedonia", "MKD"), ("North Macedonia", "MKD"),
   ("The Former Yugoslav Republic of Macedonia", "MKD")]

/-- Exact lookup in a manual override table (python
`if country_name in manual_mapping`; keys are distinct in both tables,
and a dict lookup returns the entry of the matching key). -/
def lookupManual (table : List (String × String)) (name : String) : Option String :=
  (table.find? (fun p => p.1 = name)).map (fun p => p.2)

/-- `get_iso_alpha3_enhanced`: exact match in the manual table first,
otherwise the general `pycountry.countries.lookup` (an external
database, modelled as a parameter `general`; the `except` clause turns
any lookup failure into `None`). -/
def get_iso_alpha3_enhanced (table : List (String × String))
    (general : String → Option String) (name : String) : Option String :=
  match lookupManual table name with
  | some code => some code
  | none => general name

/- ### Chart results

The plotly figure layer is external (spec §2: the Chart Assembler is
an excluded collaborator); a chart value carries the data series the
dashboard hands to it, or an explicit empty/no-data form. -/

/-- A chart specification: the data handed to the charting library. -/
inductive Chart where
  | emptyFig
  | pie (slices : List (String × Nat))
  | bar (bars : List (String × Nat))
  | roiBar (bars : List (String × PVal))
  | sunburst (cells : List ((Int × String) × Nat))
  | sunburstMsg (title : String)
deriving DecidableEq, Repr

/-- The `astype(str).str.strip("[]").str.replace("'", "").str.split(", ")`
chain the tabs apply to a column that may already hold python lists:
print the cell, trim brackets, delete quotes, split on `", "`. -/
def pyListRoundtrip (c : Cell) : Cell :=
  .strs (pySplit (removeQuotes (stripBrackets c.toPyStr)) ", ")

/-- `df['production_companies']` extracted for `value_counts` (NaN
cells are dropped by `value_counts`, list cells cannot occur there). -/
def companyKeys (t : List Row) : List String :=
  t.filterMap (fun r => match r.companies with | .str s => some s | _ => none)

/- ### company.py chart functions -/

/-- The filtering pipeline of company.py `companywrtgenre` lines
97-110: explode genres, strip, keep the selected genre
(case-insensitive), round-trip and explode companies, strip, then drop
company tokens that are missing or sentinel-invalid. -/
def companywrtgenreFiltered (t : List Row) (genre : String) : List Row :=
  let t1 := explodeGenres t
  let t2 := t1.map (fun r => { r with genres := r.genres.strip })
  let t3 := t2.filter (fun r => r.genres.lowerEq (pyLower genre))
  let t4 := t3.map (fun r => { r with companies := pyListRoundtrip r.companies })
  let t5 := explodeCompanies t4
  let t6 := t5.map (fun r => { r with companies := r.companies.strip })
  t6.filter (fun r => r.companies.notna && !(r.companies.lowerIsin ["", "nan", "none"]))

/-- company.py `companywrtgenre` (lines 96-147): if the filtered frame
is empty it RAISES `ValueError(f"No data available for genre: {genre}")`
(modelled as `Except.error`); otherwise the top-7 company counts are
charted. -/
def companywrtgenre (t : List Row) (genre : String) : Except String Chart :=
  let t7 := companywrtgenreFiltered t genre
  if t7.isEmpty then .error ("No data available for genre: " ++ genre)
  else .ok (.bar (nlargestCounts 7 (companyKeys t7)))

/-- Descending comparison on float cells for `sort_values(ascending=False)`
over a column that `dropna` has already cleared of NaN. -/
def PVal.gtB : PVal → PVal → Bool
  | .nan, _ => false
  | _, .nan => true
  | .inf, .inf => false
  | .inf, _ => true
  | _, .inf => false
  | .ninf, _ => false
  | _, .ninf => true
  | .num a, .num b => decide (b < a)

/-- Insert into a descending-by-ROI list, after entries that are
greater or equal. -/
def insertRoiDesc (x : String × PVal) : List (String × PVal) → List (String × PVal)
  | [] => [x]
  | y :: ys => if PVal.gtB x.2 y.2 then x :: y :: ys else y :: insertRoiDesc x ys

/-- The `top_movies` computation of company.py `topwrtroi` lines
207-212: explode companies, strip, keep the selected company
(case-insensitive), take `df[['title','roi']].dropna()`, sort by ROI
descending and keep the first five. -/
def topwrtroiTop (t : List Row) (company : String) : List (String × PVal) :=
  let t1 := explodeCompanies t
  let t2 := t1.map (fun r => { r with companies := r.companies.strip })
  let t3 := t2.filter (fun r => r.companies.lowerEq (pyLower company))
  let pairs := t3.filterMap (fun r =>
    match r.title, r.roi with
    | some _, .nan => none
    | some s, v => some (s, v)
    | none, _ => none)
  (pairs.foldl (fun acc x => insertRoiDesc x acc) []).take 5

/-- company.py `topwrtroi` (lines 206-238): if no row with a non-null
title and ROI matches the company it RAISES
`ValueError(f"No valid ROI data found for company: {company_name}")`;
otherwise the five movies are charted (re-sorted ascending for
display by `top_movies.sort_values('roi')`, modelled as the reverse of
the descending list). -/
def topwrtroi (t : List Row) (company : String) : Except String Chart :=
  let top := topwrtroiTop t company
  if top.isEmpty then .error ("No valid ROI data found for company: " ++ company)
  else .ok (.roiBar top.reverse)

/- ### country.py chart functions -/

/-- The filtering pipeline of country.py `top_production_companies_donut`
lines 187-200: round-trip both multi-value columns, explode and strip
them, drop missing/sentinel company tokens (case-insensitive
`['', 'nan', 'none']`), keep the selected country. -/
def donutFiltered (t : List Row) (country : String) : List Row :=
  let t1 := t.map (fun r => { r with countries := pyListRoundtrip r.countries })
  let t2 := explodeCountries t1
  let t3 := t2.map (fun r => { r with countries := r.countries.strip })
  let t4 := t3.map (fun r => { r with companies := pyListRoundtrip r.companies })
  let t5 := explodeCompanies t4
  let t6 := t5.map (fun r => { r with companies := r.companies.strip })
  let t7 := t6.filter (fun r => r.companies.notna)
  let t8 := t7.filter (fun r => !(r.companies.lowerIsin ["", "nan", "none"]))
  t8.filter (fun r => r.countries.eqStr country)

/-- country.py `top_production_companies_donut` (lines 186-223): an
empty filtered frame returns the explicit empty pie
`px.pie(names=[], values=[])`; otherwise the top-7 company counts. -/
def top_production_companies_donut (t : List Row) (country : String) : Chart :=
  let t9 := donutFiltered t country
  if t9.isEmpty then .pie []
  else .pie (nlargestCounts 7 (companyKeys t9))

/- ### Field-normalizer call sites for the sentinel-token guarantee -/

/-- The country-token cleaning of genre.py `country_heatmap` lines
101-109: astype(str) round-trip split on `", "`, explode, strip, then
the PARTIAL sentinel filter — `notna()`, `.str.lower() != 'nan'`,
`!= ''`.  Tokens equal to `'None'`/`'none'` are NOT filtered here. -/
def countryHeatmapTokens (t : List Row) : List Row :=
  let t1 := t.map (fun r => { r with countries := pyListRoundtrip r.countries })
  let t2 := explodeCountries t1
  let t3 := t2.map (fun r => { r with countries := r.countries.strip })
  let t4 := t3.filter (fun r => r.countries.notna)
  let t5 := t4.filter (fun r => !(r.countries.lowerEq "nan"))
  t5.filter (fun r => !(r.countries.eqStr ""))

/-- The genre explosion of company.py `sankey` lines 161-162: explode
genres and strip — NO sentinel filter is applied before the genre
counts on lines 164-167. -/
def sankeyGenreRows (t : List Row) : List Row :=
  (explodeGenres t).map (fun r => { r with genres := r.genres.strip })

/- ### country.py module-level preprocessing (lines 12-21) -/

/-- `df['genres'].fillna('').str.split(',\s*')` on one cell: a missing
cell becomes `''` and splits to `['']`; a string splits normally; a
cell already holding a list would get NaN from the `.str` accessor. -/
def fillnaSplitCommaWs : Cell → Cell
  | .na => .strs (splitCommaWs "")
  | .str s => .strs (splitCommaWs s)
  | .strs _ => .na

/-- `df['col'].str.split(',\s*')` on one cell (no fillna). -/
def splitCellCommaWs : Cell → Cell
  | .str s => .strs (splitCommaWs s)
  | _ => .na

/-- `df[df['year'].between(1940, 2023)]` (NaN year is dropped). -/
def keepYear1940 (r : Row) : Bool :=
  match r.year with
  | some y => 1940 ≤ y && y ≤ 2023
  | none => false

/-- `df[df['title'].isin(['IPL 2025', 'TikTok Rizz Party']) == False]`. -/
def keepTitleNotExcluded (r : Row) : Bool :=
  !(r.title == some "IPL 2025" || r.title == some "TikTok Rizz Party")

/-- `df.dropna(subset=["title", "production_countries", "production_companies"])`. -/
def keepRequiredNotna (r : Row) : Bool :=
  r.title.isSome && r.countries.notna && r.companies.notna

/-- The module-level preprocessing of src/tabs/country.py lines 12-21:
split genres (with fillna), derive the year, keep 1940-2023, drop the
two outlier titles, drop rows missing title/countries/companies, split
countries, derive ROI, replace ±∞ by NaN in every float column, and
drop rows whose ROI is NaN.  Every country-tab chart receives (a copy
of) this pruned table. -/
def countryPreprocess (t : List Row) : List Row :=
  let t1 := t.map (fun r => { r with genres := fillnaSplitCommaWs r.genres,
                                     year := r.releaseDate.bind parseYear })
  let t2 := t1.filter keepYear1940
  let t3 := t2.filter keepTitleNotExcluded
  let t4 := t3.filter keepRequiredNotna
  let t5 := t4.map (fun r => { r with countries := splitCellCommaWs r.countries })
  let t6 := t5.map (fun r => { r with roi := PVal.div r.revenue r.budget })
  let t7 := t6.map (fun r => { r with revenue := r.revenue.replaceInfNan,
                                      budget := r.budget.replaceInfNan,
                                      popularity := r.popularity.replaceInfNan,
                                      roi := r.roi.replaceInfNan })
  t7.filter (fun r => r.roi ≠ PVal.nan)

/- ### dash_dashboard.py create_choropleth_map data pipeline -/

/-- `df1['production_countries'].str.strip() != ''` on one cell (a
missing value compares unequal to `''`, hence is kept by this step). -/
def Cell.stripNe (c : Cell) : Bool :=
  match c with
  | .str s => pyStrip s ≠ ""
  | _ => true

/-- The frame preparation of `create_choropleth_map`
(dash_dashboard.py lines 315-324): keep rows with a present, non-blank
country cell, split countries and genres on `,\s*`, explode countries
then genres, and strip both token columns. -/
def chorPrepped (t : List Row) : List Row :=
  let t1 := t.filter (fun r => r.countries.notna)
  let t2 := t1.filter (fun r => r.countries.stripNe)
  let t3 := t2.map (fun r => { r with countries := splitCellCommaWs r.countries,
                                      genres := splitCellCommaWs r.genres })
  let t4 := explodeGenres (explodeCountries t3)
  t4.map (fun r => { r with countries := r.countries.strip, genres := r.genres.strip })

/-- The (country, genre) key pairs of
`df1.groupby(['production_countries', 'genres']).size()` — pandas
drops rows whose group key is NaN. -/
def countryGenrePairs (t : List Row) : List (String × String) :=
  t.filterMap (fun r =>
    match r.countries, r.genres with
    | .str c, .str g => some (c, g)
    | _, _ => none)

/-- `country_genre` of `create_choropleth_map` line 353: genre counts
keyed by (country, genre), computed BEFORE any ISO mapping. -/
def country_genre (t : List Row) : List ((String × String) × Nat) :=
  groupPairCounts (countryGenrePairs t)

/-- Country keys for the summary groupby (NaN keys dropped). -/
def chorCountryKeys (t : List Row) : List String :=
  t.filterMap (fun r => match r.countries with | .str c => some c | _ => none)

/-- `summary` of `create_choropleth_map` line 354:
`groupby('production_countries').agg(movie_count=('title', 'count'))` —
one row per country with the number of rows having a non-null title. -/
def chorSummary (t : List Row) : List (String × Nat) :=
  (uniqueInOrder (chorCountryKeys t)).map (fun c =>
    (c, (t.filter (fun r => r.countries.eqStr c && r.title.isSome)).length))

/-- `summary` after lines 355-356: map each country through
`get_iso_alpha3_enhanced` and `dropna(subset=['iso_alpha'])` — rows
whose country has no code are EXCLUDED from the geography output. -/
def chorSummaryIso (general : String → Option String) (t : List Row) :
    List (String × String × Nat) :=
  (chorSummary (chorPrepped t)).filterMap (fun p =>
    (get_iso_alpha3_enhanced dashManual general p.1).map (fun iso => (p.1, iso, p.2)))

/- ### Genre-sunburst frame model (shared-base mutation) -/

/-- A cell of the `release_date` column: still the raw CSV string, or
already converted by `pd.to_datetime` (only the year is relevant
downstream, `errors='coerce'` makes unparseable dates None/NaT). -/
inductive DateCell where
  | raw (s : Option String)
  | dt (y : Option Int)
deriving DecidableEq, Repr

/-- The year of a date cell, parsing raw strings on demand. -/
def dateCellYear : DateCell → Option Int
  | .raw (some s) => parseYear s
  | .raw none => none
  | .dt y => y

/-- A row of the base table as the sunburst functions see it. -/
structure DRow where
  title : Option String
  releaseDate : DateCell
  genres : Option String
  year : Option Int
deriving DecidableEq, Repr

/-- A frame: its rows plus whether the `year` column exists at all
(the raw CSV frame of dash_dashboard.py has no `year` column). -/
structure DFrame where
  rows : List DRow
  hasYear : Bool
deriving DecidableEq, Repr

/-- The shared year-filter / genre-explode / group pipeline of both
sunburst functions: keep years in `[startY, endY]`, drop rows missing
year or genres, split genres on `','` and strip each token, explode,
keep the listed genres, and count by (year, genre). -/
def sunburstCounts (rows : List DRow) (startY endY : Int) (genres : List String) :
    List ((Int × String) × Nat) :=
  let r1 := rows.filter (fun r =>
    match r.year with | some y => startY ≤ y && y ≤ endY | none => false)
  let r2 := r1.filter (fun r => r.year.isSome && r.genres.isSome)
  let pairs := r2.flatMap (fun r =>
    match r.year, r.genres with
    | some y, some g =>
        ((pySplit g ",").map pyStrip).filterMap
          (fun tok => if genres.contains tok then some (y, tok) else none)
    | _, _ => [])
  groupKeyCounts pairs

/-- dash_dashboard.py `create_genre_sunburst` (lines 227-260): the
function assigns `df['release_date'] = pd.to_datetime(...)` and
`df['year'] = df['release_date'].dt.year` on the frame it was GIVEN —
before any `.copy()` — so the caller's base frame comes back changed:
its date column is converted and a year column now exists.  The second
component is the state of the caller's frame after the call. -/
def create_genre_sunburst (f : DFrame) : Chart × DFrame :=
  let rows1 := f.rows.map (fun r =>
    let y := dateCellYear r.releaseDate
    { r with releaseDate := .dt y, year := y })
  let fMut : DFrame := { rows := rows1, hasYear := true }
  (.sunburst (sunburstCounts rows1 2020 2023
      ["Comedy", "Horror", "Animation", "Thriller", "Romance", "Action"]), fMut)

/-- overview.py `get_genre_sunburst` (lines 85-147): it starts with
`df = df.copy()`, so all column assignments hit the copy and the
caller's frame is returned unchanged; an empty grouped result returns
the explicit no-data sunburst. -/
def get_genre_sunburst (f : DFrame) (startY endY : Int) (genres : List String) :
    Chart × DFrame :=
  let rows1 := f.rows.map (fun r =>
    let y := dateCellYear r.releaseDate
    { r with releaseDate := .dt y, year := y })
  let counts := sunburstCounts rows1 startY endY genres
  (if counts.isEmpty then .sunburstMsg "No data available for selected genres and years."
   else .sunburst counts, f)

/- ### Shared lemmas -/

theorem replaceInfNan_ne_inf (v : PVal) :
    v.replaceInfNan ≠ .inf ∧ v.replaceInfNan ≠ .ninf := by
cases v <;> simp [PVal.replaceInfNan]

theorem replaceInfNan_eq_num {v : PVal} {q : ℚ} (h : v.replaceInfNan = .num q) :
    v = .num q := by
cases v <;> simpa [PVal.replaceInfNan] using h

theorem div_num_zero_replace (v : PVal) :
    (PVal.div v (.num 0)).replaceInfNan = .nan := by
cases v <;> simp [PVal.div, PVal.replaceInfNan] <;> split_ifs <;> simp [PVal.replaceInfNan]

theorem mem_foldl_dedup {α : Type} [DecidableEq α] {x : α} :
    ∀ (l acc : List α), (x ∈ acc ∨ x ∈ l) →
      x ∈ l.foldl (fun acc y => if y ∈ acc then acc else acc ++ [y]) acc := by
intro l
induction l with
| nil => intro acc h; simpa using h.resolve_right (by simp)
| cons y ys ih =>
    intro acc h
    simp only [List.foldl_cons]
    by_cases hy : y ∈ acc
    · simp only [if_pos hy]
      refine ih acc ?_
      rcases h with h | h
      · exact Or.inl h
      · rcases List.mem_cons.1 h with rfl | h
        · exact Or.inl hy
        · exact Or.inr h
    · simp only [if_neg hy]
      refine ih (acc ++ [y]) ?_
      rcases h with h | h
      · exact Or.inl (List.mem_append_left _ h)
      · rcases List.mem_cons.1 h with rfl | h
        · exact Or.inl (by simp)
        · exact Or.inr h

theorem mem_uniqueInOrder {α : Type} [DecidableEq α] {x : α} {l : List α}
    (h : x ∈ l) : x ∈ uniqueInOrder l :=
mem_foldl_dedup l [] (Or.inr h)

theorem mem_groupKeyCounts {α : Type} [DecidableEq α] {k : α} {keys : List α}
    (h : k ∈ keys) : (k, keys.count k) ∈ groupKeyCounts keys :=
List.mem_map_of_mem _ (mem_uniqueInOrder h)

theorem explodeCell_strs_of_ne {l : List String} (h : l ≠ []) :
    explodeCell (.strs l) = l.map Cell.str := by
cases l with
| nil => exact absurd rfl h
| cons a as => rfl

theorem mem_insertDesc {x y : String × Nat} :
    ∀ {l : List (String × Nat)}, y ∈ insertDesc x l → y = x ∨ y ∈ l := by
intro l
induction l with
| nil => intro h; simpa [insertDesc] using h
| cons z zs ih =>
    intro h
    simp only [insertDesc] at h
    split at h
    · rcases List.mem_cons.1 h with rfl | h
      · exact Or.inl rfl
      · exact Or.inr h
    · rcases List.mem_cons.1 h with rfl | h
      · exact Or.inr (List.mem_cons_self _ _)
      · rcases ih h with rfl | h
        · exact Or.inl rfl
        · exact Or.inr (List.mem_cons_of_mem _ h)

theorem pairwise_insertDesc {x : String × Nat} :
    ∀ {l : List (String × Nat)},
      l.Pairwise (fun a b => b.2 ≤ a.2) →
      (insertDesc x l).Pairwise (fun a b => b.2 ≤ a.2) := by
intro l
induction l with
| nil => intro _; simp [insertDesc]
| cons z zs ih =>
    intro h
    rcases List.pairwise_cons.1 h with ⟨hz, hzs⟩
    simp only [insertDesc]
    split
    · rename_i hlt
      refine List.pairwise_cons.2 ⟨?_, h⟩
      intro b hb
      rcases List.mem_cons.1 hb with rfl | hb
      · exact Nat.le_of_lt hlt
      · exact Nat.le_trans (hz b hb) (Nat.le_of_lt hlt)
    · rename_i hge
      refine List.pairwise_cons.2 ⟨?_, ih hzs⟩
      intro b hb
      rcases mem_insertDesc hb with rfl | hb
      · exact Nat.le_of_not_lt hge
      · exact hz b hb

theorem pairwise_sortCountDesc (l : List (String × Nat)) :
    (sortCountDesc l).Pairwise (fun a b => b.2 ≤ a.2) := by
have : ∀ (l acc : List (String × Nat)),
    acc.Pairwise (fun a b => b.2 ≤ a.2) →
    (l.foldl (fun acc x => insertDesc x acc) acc).Pairwise (fun a b => b.2 ≤ a.2) := by
  intro l
  induction l with
  | nil => intro acc h; simpa using h
  | cons x xs ih => intro acc h; exact ih (insertDesc x acc) (pairwise_insertDesc h)
exact this l [] (by simp)

/- ### Claim theorems -/

/-- C7: the derived-field ROI calculation — `roi(0,0)` is null,
`roi(100,0)` is null (not infinity), `roi(200,100) = 2`, a zero budget
always gives null, a null operand gives null, the result is never
±infinity (the `replace([inf,-inf], nan)` step normalises any infinite
quotient before aggregation), and for a nonzero budget the result is
the exact quotient. -/
theorem claim7_roi_contract :
    roiCalc (.num 0) (.num 0) = .nan
    ∧ roiCalc (.num 100) (.num 0) = .nan
    ∧ roiCalc (.num 200) (.num 100) = .num 2
    ∧ (∀ q : ℚ, roiCalc (.num q) (.num 0) = .nan)
    ∧ (∀ b, roiCalc .nan b = .nan)
    ∧ (∀ r, roiCalc r .nan = .nan)
    ∧ (∀ r b, roiCalc r b ≠ .inf ∧ roiCalc r b ≠ .ninf)
    ∧ (∀ a b : ℚ, b ≠ 0 → roiCalc (.num a) (.num b) = .num (a / b)) := by
refine ⟨?_, ?_, ?_, ?_, ?_, ?_, ?_, ?_⟩
· simp [roiCalc, PVal.div, PVal.replaceInfNan]
· simp [roiCalc, PVal.div, PVal.replaceInfNan]
· simp [roiCalc, PVal.div, PVal.replaceInfNan]
  norm_num
· intro q
  exact div_num_zero_replace (.num q)
· intro b
  cases b <;> rfl
· intro r
  cases r <;> rfl
· intro r b
  exact replaceInfNan_ne_inf (PVal.div r b)
· intro a b hb
  simp [roiCalc, PVal.div, hb, PVal.replaceInfNan]

/-- C7 witness: the nonzero-budget conjunct applied at budget 4. -/
theorem claim7_roi_contract_witness :
    (4 : ℚ) ≠ 0 ∧ roiCalc (.num 6) (.num 4) = .num (6 / 4) :=
⟨by norm_num, claim7_roi_contract.2.2.2.2.2.2.2 6 4 (by norm_num)⟩

/-- C2 counterexample: the unrecognized company name "Studio XYZ" does
NOT pass through the alias step unchanged — `company_heatmap` maps it
to null and drops its row from the aggregation input. -/
theorem claim2_alias_drop_counterexample :
    studio_map "Studio XYZ" ≠ some "Studio XYZ"
    ∧ heatmapAliasStep ["Walt Disney Pictures", "Studio XYZ"] = ["Walt Disney Studios"] := by
constructor
· decide
· decide

/-- C2 amended: a listed variant resolves to its canonical studio
("Walt Disney Pictures" → "Walt Disney Studios"); a name matching no
variant maps to none and `company_heatmap` drops its row (it is not
retained); only `create_company_sankey_chart`'s selection fallback
passes an unrecognized name through, as its own singleton alias
list. -/
theorem claim2_alias_resolution :
    studio_map "Walt Disney Pictures" = some "Walt Disney Studios"
    ∧ studio_map "Studio XYZ" = none
    ∧ heatmapAliasStep ["Walt Disney Pictures", "Studio XYZ"] = ["Walt Disney Studios"]
    ∧ sankeyAliases "Studio XYZ" = ["Studio XYZ"]
    ∧ sankeyAliases "Walt Disney Studios" =
        ["Walt Disney Pictures", "Disney", "Walt Disney Studios", "Walt Disney Productions"] := by
refine ⟨?_, ?_, ?_, ?_, ?_⟩ <;> decide

/-- C4 counterexample: the country-tab mapper's manual table omits the
second listed variants — "United States", "Russian Federation",
"Czechia", "Viet Nam" and "North Macedonia" miss the exact-match table
and fall through to the general lookup (here one that fails), so the
listed code is NOT returned by exact match for them. -/
theorem claim4_manual_table_counterexample :
    lookupManual countryTabManual "United States" = none
    ∧ lookupManual countryTabManual "Russian Federation" = none
    ∧ lookupManual countryTabManual "Czechia" = none
    ∧ lookupManual countryTabManual "Viet Nam" = none
    ∧ lookupManual countryTabManual "North Macedonia" = none
    ∧ get_iso_alpha3_enhanced countryTabManual (fun _ => none) "Viet Nam" = none := by
refine ⟨?_, ?_, ?_, ?_, ?_, ?_⟩ <;> decide

/-- C4 amended: the dashboard choropleth's manual override table
contains every §6 entry (both variants) and answers them by exact
match whatever the general lookup does; the country-tab mapper's table
contains only the first variants (plus UK) and resolves the second
variants only through the general lookup. -/
theorem claim4_manual_tables (general : String → Option String) :
    get_iso_alpha3_enhanced dashManual general "United States" = some "USA"
    ∧ get_iso_alpha3_enhanced dashManual general "United States of America" = some "USA"
    ∧ get_iso_alpha3_enhanced dashManual general "United Kingdom" = some "GBR"
    ∧ get_iso_alpha3_enhanced dashManual general "UK" = some "GBR"
    ∧ get_iso_alpha3_enhanced dashManual general "Russia" = some "RUS"
    ∧ get_iso_alpha3_enhanced dashManual general "Russian Federation" = some "RUS"
    ∧ get_iso_alpha3_enhanced dashManual general "South Korea" = some "KOR"
    ∧ get_iso_alpha3_enhanced dashManual general "North Korea" = some "PRK"
    ∧ get_iso_alpha3_enhanced dashManual general "Czech Republic" = some "CZE"
    ∧ get_iso_alpha3_enhanced dashManual general "Czechia" = some "CZE"
    ∧ get_iso_alpha3_enhanced dashManual general "Iran" = some "IRN"
    ∧ get_iso_alpha3_enhanced dashManual general "Venezuela" = some "VEN"
    ∧ get_iso_alpha3_enhanced dashManual general "Bolivia" = some "BOL"
    ∧ get_iso_alpha3_enhanced dashManual general "Taiwan" = some "TWN"
    ∧ get_iso_alpha3_enhanced dashManual general "Moldova" = some "MDA"
    ∧ get_iso_alpha3_enhanced dashManual general "Vietnam" = some "VNM"
    ∧ get_iso_alpha3_enhanced dashManual general "Viet Nam" = some "VNM"
    ∧ get_iso_alpha3_enhanced dashManual general "Macedonia" = some "MKD"
    ∧ get_iso_alpha3_enhanced dashManual general "North Macedonia" = some "MKD"
    ∧ get_iso_alpha3_enhanced countryTabManual general "United States of America" = some "USA"
    ∧ get_iso_alpha3_enhanced countryTabManual general "UK" = some "GBR"
    ∧ get_iso_alpha3_enhanced countryTabManual general "United Kingdom" = some "GBR"
    ∧ get_iso_alpha3_enhanced countryTabManual general "Russia" = some "RUS"
    ∧ get_iso_alpha3_enhanced countryTabManual general "South Korea" = some "KOR"
    ∧ get_iso_alpha3_enhanced countryTabManual general "North Korea" = some "PRK"
    ∧ get_iso_alpha3_enhanced countryTabManual general "Czech Republic" = some "CZE"
    ∧ get_iso_alpha3_enhanced countryTabManual general "Iran" = some "IRN"
    ∧ get_iso_alpha3_enhanced countryTabManual general "Venezuela" = some "VEN"
    ∧ get_iso_alpha3_enhanced countryTabManual general "Bolivia" = some "BOL"
    ∧ get_iso_alpha3_enhanced countryTabManual general "Taiwan" = some "TWN"
    ∧ get_iso_alpha3_enhanced countryTabManual general "Moldova" = some "MDA"
    ∧ get_iso_alpha3_enhanced countryTabManual general "Vietnam" = some "VNM"
    ∧ get_iso_alpha3_enhanced countryTabManual general "Macedonia" = some "MKD"
    ∧ lookupManual countryTabManual "Viet Nam" = none :=
⟨rfl, rfl, rfl, rfl, rfl, rfl, rfl, rfl, rfl, rfl, rfl, rfl, rfl, rfl, rfl, rfl, rfl,
 rfl, rfl, rfl, rfl, rfl, rfl, rfl, rfl, rfl, rfl, rfl, rfl, rfl, rfl, rfl, rfl, rfl⟩

/-- C4 witness: the amended theorem instantiated with a failing
general lookup. -/
theorem claim4_manual_tables_witness :
    get_iso_alpha3_enhanced dashManual (fun _ => none) "Viet Nam" = some "VNM" :=
(claim4_manual_tables (fun _ => none)).2.2.2.2.2.2.2.2.2.2.2.2.2.2.2.2.1

/-- C5 counterexample: for the tied input ["B Studio", "A Studio"]
(each count 1) the code's top-1 keeps "B Studio" — first appearance
order, not the ascending lexical tie-break the claim states — and the
permuted input with the SAME multiset keeps "A Studio", so the output
is not a function of the multiset of (key, metric) pairs. -/
theorem claim5_topn_tiebreak_counterexample :
    nlargestCounts 1 ["B Studio", "A Studio"] = [("B Studio", 1)]
    ∧ specTopN 1 ["B Studio", "A Studio"] = [("A Studio", 1)]
    ∧ List.Perm ["B Studio", "A Studio"] ["A Studio", "B Studio"]
    ∧ nlargestCounts 1 ["A Studio", "B Studio"] = [("A Studio", 1)] := by
refine ⟨?_, ?_, ?_, ?_⟩ <;> decide

/-- C5 amended: `value_counts().nlargest(n)` returns at most `n` rows
sorted by count descending; ties stay in first-appearance order of the
input (pandas' stable sort), so the output is a deterministic function
of the input sequence but not of its multiset alone. -/
theorem claim5_topn_sorted (n : Nat) (keys : List String) :
    (nlargestCounts n keys).length ≤ n
    ∧ (nlargestCounts n keys).Pairwise (fun a b => b.2 ≤ a.2) := by
constructor
· simpa [nlargestCounts] using List.length_take_le n (valueCounts keys)
· exact (pairwise_sortCountDesc (groupCounts keys)).sublist (List.take_sublist _ _)

/-- C5 witness: the amended theorem applied to a concrete tied
input. -/
theorem claim5_topn_sorted_witness :
    (nlargestCounts 2 ["x", "y", "y", "z"]).length ≤ 2
    ∧ (nlargestCounts 2 ["x", "y", "y", "z"]).Pairwise (fun a b => b.2 ≤ a.2) :=
claim5_topn_sorted 2 ["x", "y", "y", "z"]

/-- C1 counterexample: on the EMPTY input table the company-tab chart
functions do not return an empty chart — they raise
(`ValueError`, modelled as `Except.error`), so an exception does cross
the component boundary. -/
theorem claim1_empty_raises_counterexample :
    companywrtgenre [] "Animation" = .error "No data available for genre: Animation"
    ∧ topwrtroi [] "Pixar Animation"
        = .error "No valid ROI data found for company: Pixar Animation" :=
⟨rfl, rfl⟩

/-- C1 amended: when the filtered intermediate result is empty,
`companywrtgenre` and `topwrtroi` raise a ValueError (an exception
crosses the component boundary, and an empty input table yields that
error, not empty output), while `top_production_companies_donut`
returns the explicit empty pie chart. -/
theorem claim1_empty_filter_behavior :
    (∀ t g, companywrtgenreFiltered t g = [] →
        companywrtgenre t g = .error ("No data available for genre: " ++ g))
    ∧ (∀ t c, topwrtroiTop t c = [] →
        topwrtroi t c = .error ("No valid ROI data found for company: " ++ c))
    ∧ (∀ t c, donutFiltered t c = [] → top_production_companies_donut t c = .pie []) := by
refine ⟨?_, ?_, ?_⟩
· intro t g h
  simp [companywrtgenre, h]
· intro t c h
  simp [topwrtroi, h]
· intro t c h
  simp [top_production_companies_donut, h]

/-- C1 witness: the amended theorem applied to the empty table. -/
theorem claim1_empty_filter_witness :
    companywrtgenreFiltered [] "Horror" = []
    ∧ companywrtgenre [] "Horror" = .error ("No data available for genre: " ++ "Horror") :=
⟨rfl, claim1_empty_filter_behavior.1 [] "Horror" rfl⟩

/-- A row whose country token is the literal string "None", as the
dataset can contain after the astype(str) round-trip. -/
def rowNoneCountry : Row :=
  { title := some "M", releaseDate := some "2001-01-01", genres := .strs ["Drama"],
    countries := .str "None", companies := .na,
    revenue := .num 1, budget := .num 1, popularity := .num 1, roi := .nan,
    year := some 2001 }

/-- A row whose genres list is `['']` — exactly what the module-level
`fillna('').str.split(',\s*')` produces for a missing genres cell. -/
def rowEmptyGenre : Row :=
  { title := some "M", releaseDate := some "2001-01-01", genres := .strs [""],
    countries := .na, companies := .na,
    revenue := .num 1, budget := .num 1, popularity := .num 1, roi := .nan,
    year := some 2001 }

/-- C6 counterexample: the normalizer guarantee fails at two cited
call sites — genre.py `country_heatmap` keeps the token "None" (its
filter checks only `''` and lower-case `'nan'`), and company.py
`sankey` applies no sentinel filter at all, so the empty-string token
from a missing genres cell reaches the genre grouping. -/
theorem claim6_sentinel_counterexample :
    pyLower "None" = "none"
    ∧ (countryHeatmapTokens [rowNoneCountry]).map (fun r => r.countries) = [.str "None"]
    ∧ (sankeyGenreRows [rowEmptyGenre]).map (fun r => r.genres) = [.str ""] := by
refine ⟨?_, ?_, ?_⟩ <;> decide

/-- C6 amended: the sentinel-token guarantee holds only at the
donut-style call sites (which filter `''`/`'nan'`/`'none'`
case-insensitively); `country_heatmap` guarantees only that no empty
and no (case-insensitive) 'nan' token survives — 'None' passes — and
the company-tab sankey applies no filter, so even '' reaches its
grouping; a missing raw cell normalizes to `['']`, not to the empty
sequence. -/
theorem claim6_sentinel_filters :
    (∀ t c r, r ∈ donutFiltered t c → ∀ s, r.companies = .str s →
        pyLower s ≠ "" ∧ pyLower s ≠ "nan" ∧ pyLower s ≠ "none")
    ∧ (∀ t r, r ∈ countryHeatmapTokens t → ∀ s, r.countries = .str s →
        s ≠ "" ∧ pyLower s ≠ "nan")
    ∧ (countryHeatmapTokens [rowNoneCountry]).map (fun r => r.countries) = [.str "None"]
    ∧ (sankeyGenreRows [rowEmptyGenre]).map (fun r => r.genres) = [.str ""]
    ∧ fillnaSplitCommaWs .na = .strs [""] := by
refine ⟨?_, ?_, by decide, by decide, by decide⟩
· intro t c r hr s hs
  simp only [donutFiltered, List.mem_filter] at hr
  obtain ⟨⟨_, hnotin⟩, _⟩ := hr
  rw [hs] at hnotin
  simpa [Cell.lowerIsin, not_or] using hnotin
· intro t r hr s hs
  simp only [countryHeatmapTokens, List.mem_filter] at hr
  obtain ⟨⟨_, hnan⟩, hempty⟩ := hr
  rw [hs] at hnan hempty
  constructor
  · simpa [Cell.eqStr] using hempty
  · simpa [Cell.lowerEq] using hnan

/-- A row that survives the donut filter unchanged (its scalar country
and company cells round-trip to themselves). -/
def rowDonutWitness : Row :=
  { title := some "M", releaseDate := some "2001-01-01", genres := .na,
    countries := .str "USA", companies := .str "Pixar",
    revenue := .num 1, budget := .num 1, popularity := .num 1, roi := .nan,
    year := some 2001 }

/-- A row that survives the heatmap country cleaning unchanged. -/
def rowHeatmapWitness : Row :=
  { title := some "M", releaseDate := some "2001-01-01", genres := .na,
    countries := .str "France", companies := .na,
    revenue := .num 1, budget := .num 1, popularity := .num 1, roi := .nan,
    year := some 2001 }

/-- C6 witness: the two universally quantified filter guarantees
applied at concrete surviving rows. -/
theorem claim6_sentinel_filters_witness :
    (pyLower "Pixar" ≠ "" ∧ pyLower "Pixar" ≠ "nan" ∧ pyLower "Pixar" ≠ "none")
    ∧ ("France" ≠ "" ∧ pyLower "France" ≠ "nan") :=
⟨claim6_sentinel_filters.1 [rowDonutWitness] "USA" rowDonutWitness (by decide) "Pixar" rfl,
 claim6_sentinel_filters.2.1 [rowHeatmapWitness] rowHeatmapWitness (by decide) "France" rfl⟩

/-- A record whose genres token list is empty, to exercise the
empty-sequence explosion case. -/
def rowEmptyTokens : Row :=
  { title := some "M", releaseDate := some "2000-01-01", genres := .strs [],
    countries := .strs ["USA"], companies := .na,
    revenue := .num 1, budget := .num 1, popularity := .num 1, roi := .nan,
    year := none }

/-- C3 counterexample: exploding a record whose normalized token list
is empty contributes ONE row with null in the exploded field — pandas
`explode` keeps empty list-likes as NaN — not zero rows as the claim
states. -/
theorem claim3_empty_explode_counterexample :
    explodeGenres [rowEmptyTokens] = [{ rowEmptyTokens with genres := .na }]
    ∧ (explodeGenres [rowEmptyTokens]).length ≠ 0 := by
constructor
· decide
· decide

/-- Uniform-genres length lemma: exploding the genres column of rows
that all carry the same nonempty token list multiplies the row count
by the number of tokens. -/
theorem length_explodeGenres_uniform {l2 : List String} (h2 : l2 ≠ []) :
    ∀ rows : List Row, (∀ r ∈ rows, r.genres = .strs l2) →
      (explodeGenres rows).length = rows.length * l2.length := by
intro rows
induction rows with
| nil => intro _; simp [explodeGenres]
| cons a as ih =>
    intro h
    have ha : a.genres = .strs l2 := h a (List.mem_cons_self _ _)
    have has : ∀ r ∈ as, r.genres = .strs l2 := fun r hr => h r (List.mem_cons_of_mem _ hr)
    simp only [explodeGenres, List.flatMap_cons] at *
    rw [List.length_append, List.length_map, ha, explodeCell_strs_of_ne h2,
      List.length_map, ih has, List.length_cons]
    ring

/-- C3 amended: exploding the countries column (m ≥ 1 tokens) and then
the genres column (n ≥ 1 tokens) of a record yields exactly m×n rows,
each identical to the source outside the two exploded fields; a record
whose token list is EMPTY contributes one kept-as-null row for that
explosion (not zero rows). -/
theorem claim3_cross_product (r : Row) (l1 l2 : List String)
    (hc : r.countries = .strs l1) (hg : r.genres = .strs l2)
    (h1 : l1 ≠ []) (h2 : l2 ≠ []) :
    (explodeGenres (explodeCountries [r])).length = l1.length * l2.length
    ∧ (∀ r' ∈ explodeGenres (explodeCountries [r]),
        r'.title = r.title ∧ r'.releaseDate = r.releaseDate ∧ r'.companies = r.companies
        ∧ r'.revenue = r.revenue ∧ r'.budget = r.budget ∧ r'.popularity = r.popularity
        ∧ r'.roi = r.roi ∧ r'.year = r.year)
    ∧ (∀ r0 : Row, r0.genres = .strs [] →
        explodeGenres [r0] = [{ r0 with genres := .na }]) := by
have hrows : explodeCountries [r] = l1.map (fun v => { r with countries := .str v }) := by
  simp [explodeCountries, hc, explodeCell_strs_of_ne h1, List.map_map]
refine ⟨?_, ?_, ?_⟩
· have huni : ∀ r' ∈ l1.map (fun v => { r with countries := Cell.str v }),
      r'.genres = Cell.strs l2 := by
    intro r' hr'
    rcases List.mem_map.1 hr' with ⟨v, _, rfl⟩
    simpa using hg
  rw [hrows, length_explodeGenres_uniform h2 _ huni, List.length_map]
· intro r' hr'
  rw [hrows] at hr'
  simp only [explodeGenres, List.mem_flatMap, List.mem_map] at hr'
  obtain ⟨a, ⟨v, _, rfl⟩, c, _, rfl⟩ := hr'
  simp
· intro r0 h0
  simp [explodeGenres, h0, explodeCell]

/-- C3 witness: the cross-product count at a concrete record with two
country tokens and three genre tokens. -/
theorem claim3_cross_product_witness :
    (explodeGenres (explodeCountries [{ rowEmptyTokens with
        countries := Cell.strs ["USA", "UK"],
        genres := Cell.strs ["Action", "Drama", "War"] }])).length = 2 * 3 :=
(claim3_cross_product _ ["USA", "UK"] ["Action", "Drama", "War"]
  rfl rfl (by decide) (by decide)).1

/-- The base frame of the mutation counterexample: raw date strings
and no year column yet, exactly the state of the dashboard's CSV-loaded
frame. -/
def sunburstBaseFrame : DFrame :=
  { rows := [{ title := some "A", releaseDate := .raw (some "2021-06-01"),
               genres := some "Comedy", year := none }],
    hasYear := false }

/-- C9 counterexample: `create_genre_sunburst` hands back a CHANGED
base frame — after the call the shared table's date column is
converted and a year column exists, refuting "no chart-producing
transformation mutates the shared base Table". -/
theorem claim9_mutation_counterexample :
    (create_genre_sunburst sunburstBaseFrame).2 ≠ sunburstBaseFrame := by
decide

/-- C9 amended: overview.py's `get_genre_sunburst` copies first and
returns the caller's frame unchanged, but dash_dashboard.py's
`create_genre_sunburst` writes the parsed date column and a new year
column into the frame it was given before copying, so any base frame
without a year column comes back changed. -/
theorem claim9_base_mutation :
    (∀ (f : DFrame) (startY endY : Int) (gs : List String),
        (get_genre_sunburst f startY endY gs).2 = f)
    ∧ (∀ f : DFrame, f.hasYear = false → (create_genre_sunburst f).2 ≠ f) := by
constructor
· intro f startY endY gs
  rfl
· intro f hf hcontra
  have hy : (create_genre_sunburst f).2.hasYear = f.hasYear := by rw [hcontra]
  simp [create_genre_sunburst, hf] at hy

/-- A second raw frame for the C9 witness. -/
def sunburstWitnessFrame : DFrame :=
  { rows := [{ title := some "B", releaseDate := .raw none,
               genres := none, year := none }],
    hasYear := false }

/-- C9 witness: both conjuncts of the amended theorem at concrete
frames. -/
theorem claim9_base_mutation_witness :
    (get_genre_sunburst sunburstWitnessFrame 2020 2023 ["Comedy"]).2 = sunburstWitnessFrame
    ∧ (sunburstWitnessFrame.hasYear = false
        ∧ (create_genre_sunburst sunburstWitnessFrame).2 ≠ sunburstWitnessFrame) :=
⟨claim9_base_mutation.1 sunburstWitnessFrame 2020 2023 ["Comedy"],
 rfl, claim9_base_mutation.2 sunburstWitnessFrame rfl⟩

/-- C10: every row of the country tab's module-level pruned table has
a non-null, finite ROI, a nonzero budget (all zero-budget movies are
gone, since their ROI is NaN or ±∞ and is dropped), is not one of the
two excluded titles, and has a year within 1940-2023 — so every
country-tab chart, ROI-related or not, operates on a table without
zero-budget movies. -/
theorem claim10_country_prune (t : List Row) (r : Row) (h : r ∈ countryPreprocess t) :
    r.roi ≠ .nan ∧ r.roi ≠ .inf ∧ r.roi ≠ .ninf
    ∧ r.budget ≠ .num 0
    ∧ r.title ≠ some "IPL 2025" ∧ r.title ≠ some "TikTok Rizz Party"
    ∧ ∃ y : Int, r.year = some y ∧ 1940 ≤ y ∧ y ≤ 2023 := by
simp only [countryPreprocess] at h
rw [List.mem_filter] at h
obtain ⟨h, hroi⟩ := h
rw [List.mem_map] at h
obtain ⟨a6, h, rfl⟩ := h
rw [List.mem_map] at h
obtain ⟨a5, h, rfl⟩ := h
rw [List.mem_map] at h
obtain ⟨a4, h, rfl⟩ := h
rw [List.mem_filter] at h
obtain ⟨h, hk4⟩ := h
rw [List.mem_filter] at h
obtain ⟨h, hk3⟩ := h
rw [List.mem_filter] at h
obtain ⟨h, hk2⟩ := h
simp only [decide_eq_true_eq] at hroi
simp only [keepTitleNotExcluded, Bool.not_eq_true', Bool.or_eq_false_iff,
  beq_eq_false_iff_ne, ne_eq] at hk3
refine ⟨hroi, (replaceInfNan_ne_inf _).1, (replaceInfNan_ne_inf _).2, ?_, hk3.1, hk3.2, ?_⟩
· intro hc0
  have hb0 : a4.budget = PVal.num 0 := replaceInfNan_eq_num hc0
  refine hroi ?_
  show (PVal.div a4.revenue a4.budget).replaceInfNan = PVal.nan
  rw [hb0]
  exact div_num_zero_replace _
· cases hy : a4.year with
  | none =>
      unfold keepYear1940 at hk2
      rw [hy] at hk2
      exact absurd hk2 (by simp)
  | some y =>
      unfold keepYear1940 at hk2
      rw [hy] at hk2
      simp only [Bool.and_eq_true, decide_eq_true_eq] at hk2
      exact ⟨y, rfl, hk2.1, hk2.2⟩

/-- A raw row that survives the country-tab pruning (its infinite
budget cell exercises the replace step without touching rationals). -/
def rowPruneWitness : Row :=
  { title := some "Up", releaseDate := some "2000-05-01", genres := .str "Action, Drama",
    countries := .str "United States of America", companies := .str "Pixar",
    revenue := .num 3, budget := .inf, popularity := .nan, roi := .nan, year := none }

/-- The pruned form of `rowPruneWitness`. -/
def rowPruneOut : Row :=
  { title := some "Up", releaseDate := some "2000-05-01",
    genres := .strs ["Action", "Drama"],
    countries := .strs ["United States of America"], companies := .str "Pixar",
    revenue := .num 3, budget := .nan, popularity := .nan, roi := .num 0,
    year := some 2000 }

/-- C10 witness: the pruning invariant applied to a member of a
concrete pruned table. -/
theorem claim10_country_prune_witness :
    rowPruneOut ∈ countryPreprocess [rowPruneWitness]
    ∧ rowPruneOut.budget ≠ PVal.num 0 ∧ rowPruneOut.roi ≠ PVal.nan := by
have heq : countryPreprocess [rowPruneWitness] = [rowPruneOut] := rfl
have hmem : rowPruneOut ∈ countryPreprocess [rowPruneWitness] :=
  heq ▸ List.mem_singleton_self rowPruneOut
exact ⟨hmem, (claim10_country_prune _ _ hmem).2.2.2.1, (claim10_country_prune _ _ hmem).1⟩

/-- C8: a country name missed by both the manual override table and
the general lookup gets the unmapped result (None), every row of the
geography summary after the `dropna(subset=['iso_alpha'])` step
carries a different country (the unmapped row is excluded without
failing), while the same (country, genre) key still appears in the
genre aggregation `country_genre` computed over the same prepared
table. -/
theorem claim8_unmapped_excluded (general : String → Option String) (name : String)
    (t : List Row) (hm : lookupManual dashManual name = none) (hg : general name = none) :
    get_iso_alpha3_enhanced dashManual general name = none
    ∧ (∀ p ∈ chorSummaryIso general t, p.1 ≠ name)
    ∧ (∀ g : String, (name, g) ∈ countryGenrePairs (chorPrepped t) →
        (name, g) ∈ (country_genre (chorPrepped t)).map Prod.fst) := by
have hiso : get_iso_alpha3_enhanced dashManual general name = none := by
  simp [get_iso_alpha3_enhanced, hm, hg]
refine ⟨hiso, ?_, ?_⟩
· intro p hp
  simp only [chorSummaryIso, List.mem_filterMap] at hp
  obtain ⟨q, hq, hmap⟩ := hp
  rw [Option.map_eq_some'] at hmap
  obtain ⟨iso, hiso2, rfl⟩ := hmap
  intro hcontra
  rw [show (q.1, iso, q.2).1 = q.1 from rfl] at hcontra
  rw [hcontra, hiso] at hiso2
  exact Option.noConfusion hiso2
· intro g hgmem
  exact List.mem_map_of_mem Prod.fst (mem_groupKeyCounts hgmem)

/-- A general lookup that fails on every name. -/
def generalFailing : String → Option String := fun _ => none

/-- A row whose country is the fictitious "Atlantis". -/
def rowAtlantis : Row :=
  { title := some "Lost City", releaseDate := some "1999-01-01", genres := .str "Drama",
    countries := .str "Atlantis", companies := .na,
    revenue := .num 1, budget := .num 1, popularity := .num 1, roi := .nan,
    year := none }

/-- C8 witness: "Atlantis" is absent from the geography summary of a
concrete table but its (country, genre) key is present in the genre
aggregation over the same table. -/
theorem claim8_unmapped_excluded_witness :
    lookupManual dashManual "Atlantis" = none
    ∧ get_iso_alpha3_enhanced dashManual generalFailing "Atlantis" = none
    ∧ (∀ p ∈ chorSummaryIso generalFailing [rowAtlantis], p.1 ≠ "Atlantis")
    ∧ ("Atlantis", "Drama") ∈ (country_genre (chorPrepped [rowAtlantis])).map Prod.fst := by
have h := claim8_unmapped_excluded generalFailing "Atlantis" [rowAtlantis] (by decide) rfl
exact ⟨by decide, h.1, h.2.1, h.2.2 "Drama" (by decide)⟩

end CineScope
